import Mathlib

/-!
Verification of the chore-tracking core of the family dashboard.

The definitions below are a shallow embedding of the frontend Svelte
store (frontend/src/lib/stores/chores.ts), the chore UI components
(ChoreCard.svelte, the chore list and pending-approvals components),
and the spec-described backend completion engine and per-household
event broadcaster. Timestamps are modelled as integers (epoch
milliseconds), JS numbers as Int, and dollar rates as rationals.
-/

namespace Dashboard

/-- Frequency union from the Chore interface in chores.ts:
daily, weekly or monthly. -/
inductive Frequency
  | daily
  | weekly
  | monthly
deriving DecidableEq, Repr

/-- The stored status union, written in chores.ts (for both the Chore
and the ChoreCompletion interfaces) as the TypeScript union
"pending" | "completed" | "disabled". -/
inductive StoredStatus
  | pending
  | completed
  | disabled
deriving DecidableEq, Repr

/-- The string literals of the TypeScript union type of the
ChoreCompletion status field in chores.ts (lines 64-77). -/
def completionStatusStrings : List String :=
  ["pending", "completed", "disabled"]

/-- Age-category union from the HouseholdMember interface in
chores.ts: child, preteen, teenager or adult. -/
inductive AgeCategory
  | child
  | preteen
  | teenager
  | adult
deriving DecidableEq, Repr

/-- HouseholdMember record from chores.ts (lines 21-32). -/
structure HouseholdMember where
  id : Int
  name : String
  date_of_birth : String
  is_parent : Bool
  age : Int
  age_category : AgeCategory
  is_active : Bool
  parent_id : Int
deriving DecidableEq, Repr

/-- Room record from chores.ts (lines 34-44). -/
structure Room where
  id : Int
  name : String
  description : Option String
  color_code : Option String
  is_active : Bool
  parent_id : Int
deriving DecidableEq, Repr

/-- Chore record from chores.ts (lines 46-62). Timestamps are epoch
milliseconds; the optional status field is the stored value the
backend returns with the chore. -/
structure Chore where
  id : Int
  name : String
  description : Option String
  points : Int
  frequency : Frequency
  is_active : Bool
  room_id : Int
  parent_id : Int
  last_completed_at : Option Int
  next_available_at : Option Int
  status : Option StoredStatus
  completed_by : Option String
  room_name : Option String
deriving DecidableEq, Repr

/-- ChoreCompletion record from chores.ts (lines 64-77). The status
field ranges over the stored union written there:
"pending" | "completed" | "disabled". -/
structure ChoreCompletion where
  id : Int
  chore_id : Int
  member_id : Int
  parent_id : Option Int
  status : StoredStatus
  points_earned : Int
  completed_at : Option Int
  confirmed_at : Option Int
  week_start : String
  created_at : String
  member_name : Option String
  chore_name : Option String
deriving DecidableEq, Repr

/-- WeeklyPoints record from chores.ts (lines 79-87): one row per
member and week, with the raw and the capped point totals. -/
structure WeeklyPoints where
  id : Int
  member_id : Int
  week_start : String
  week_end : String
  points_earned : Int
  points_capped : Int
  member_name : Option String
deriving DecidableEq, Repr

/-- AllowanceCalculation record from chores.ts (lines 89-100). Its
age_category field is a plain string in the source, unlike the
closed union on HouseholdMember. -/
structure AllowanceCalculation where
  id : Int
  member_id : Int
  month_year : String
  total_points_earned : Int
  total_points_possible : Int
  completion_percentage : ℚ
  allowance_amount : ℚ
  age_category : String
  calculated_at : String
  member_name : Option String
deriving DecidableEq, Repr

/-- WeeklyPointsSummary record from chores.ts (lines 181-186). -/
structure WeeklyPointsSummary where
  current_week_points : Int
  max_weekly_points : Int
  points_remaining : Int
  is_at_cap : Bool
deriving DecidableEq, Repr

/-- The derived store weeklyPointsSummary from chores.ts (lines
1158-1175): reads the first WeeklyPoints row as the current week and
falls back to an all-zero summary when the list is empty. -/
def weeklyPointsSummary (weeklyPoints : List WeeklyPoints) :
    WeeklyPointsSummary :=
  match weeklyPoints.head? with
  | none =>
      { current_week_points := 0
        max_weekly_points := 30
        points_remaining := 30
        is_at_cap := false }
  | some currentWeek =>
      { current_week_points := currentWeek.points_capped
        max_weekly_points := 30
        points_remaining := max 0 (30 - currentWeek.points_capped)
        is_at_cap := decide (currentWeek.points_capped ≥ 30) }

/-- C2: for every list of WeeklyPoints rows, the weekly status summary
has max_weekly_points = 30, current_week_points equal to the current
(first) week row points_capped (0 when no row exists),
points_remaining = max 0 (30 - current_week_points), is_at_cap exactly
when current_week_points ≥ 30, and the documented all-default summary
on the empty list. -/
theorem weeklyPointsSummary_spec (wps : List WeeklyPoints) :
    (weeklyPointsSummary wps).max_weekly_points = 30 ∧
    (weeklyPointsSummary wps).current_week_points =
      (wps.head?.map (fun w => w.points_capped)).getD 0 ∧
    (weeklyPointsSummary wps).points_remaining =
      max 0 (30 - (weeklyPointsSummary wps).current_week_points) ∧
    ((weeklyPointsSummary wps).is_at_cap = true ↔
      (weeklyPointsSummary wps).current_week_points ≥ 30) ∧
    weeklyPointsSummary [] =
      { current_week_points := 0
        max_weekly_points := 30
        points_remaining := 30
        is_at_cap := false } := by
  cases wps with
  | nil => refine ⟨rfl, rfl, by decide, ?_, rfl⟩; simp [weeklyPointsSummary]
  | cons w rest =>
      refine ⟨rfl, rfl, rfl, ?_, rfl⟩
      simp [weeklyPointsSummary]

/-- The allowance summary record built by the derived store
currentMemberAllowance in chores.ts (lines 1190-1197). -/
structure CurrentMemberAllowance where
  current_month_allowance : ℚ
  total_points_earned : Int
  total_points_possible : Int
  completion_percentage : ℚ
  age_category : String
  rate_per_point : ℚ
deriving DecidableEq, Repr

/-- The derived store currentMemberAllowance from chores.ts (lines
1178-1199): looks up the current-month calculation for the current
member and reports its stored figures, with a displayed rate per point
equal to the member age when the calculation age_category is
"teenager" and the constant 0.50 otherwise. -/
def currentMemberAllowance (calculations : List AllowanceCalculation)
    (currentMember : Option HouseholdMember) (currentMonth : String) :
    Option CurrentMemberAllowance :=
  match currentMember with
  | none => none
  | some m =>
    match calculations.find? (fun c =>
        c.member_id == m.id && c.month_year == currentMonth) with
    | none => none
    | some calculation =>
      some
        { current_month_allowance := calculation.allowance_amount
          total_points_earned := calculation.total_points_earned
          total_points_possible := calculation.total_points_possible
          completion_percentage := calculation.completion_percentage
          age_category := calculation.age_category
          rate_per_point :=
            if calculation.age_category = "teenager"
            then (m.age : ℚ) else 1/2 }

/-- Concrete adult member for the C1 counterexample. -/
def adultMemberC1 : HouseholdMember :=
  { id := 7
    name := "Sam"
    date_of_birth := "1990-01-01"
    is_parent := false
    age := 35
    age_category := AgeCategory.adult
    is_active := true
    parent_id := 1 }

/-- Concrete stored allowance calculation for the C1 counterexample:
an adult with 20 points earned and a nonzero stored allowance. -/
def adultCalculationC1 : AllowanceCalculation :=
  { id := 1
    member_id := 7
    month_year := "2025-01"
    total_points_earned := 20
    total_points_possible := 40
    completion_percentage := 1/2
    allowance_amount := 10
    age_category := "adult"
    calculated_at := "2025-01-31"
    member_name := none }

/-- C1 counterexample: for an adult member the store reports a rate per
point of 0.50, not 0, and passes through a nonzero stored allowance, so
the adult rate is not 0 and adult allowance is not forced to 0. -/
theorem currentMemberAllowance_adult_counterexample :
    (currentMemberAllowance [adultCalculationC1] (some adultMemberC1)
        "2025-01").map (fun s => s.rate_per_point) = some (1/2) ∧
    (currentMemberAllowance [adultCalculationC1] (some adultMemberC1)
        "2025-01").map (fun s => s.current_month_allowance) = some 10 ∧
    (1/2 : ℚ) ≠ 0 ∧ (10 : ℚ) ≠ 0 := by
  refine ⟨rfl, rfl, by norm_num, by norm_num⟩

/-- C1 amended: in currentMemberAllowance the displayed rate per point
is the member age when the found calculation age_category is
"teenager" and the fixed constant 0.50 for every other category,
adults included; the reported allowance is the stored calculation
allowance_amount, not recomputed from points and rate. -/
theorem currentMemberAllowance_rate_spec
    (calculations : List AllowanceCalculation) (m : HouseholdMember)
    (month : String) (calculation : AllowanceCalculation)
    (s : CurrentMemberAllowance)
    (hfind : calculations.find? (fun c =>
      c.member_id == m.id && c.month_year == month) = some calculation)
    (hres : currentMemberAllowance calculations (some m) month = some s) :
    s.current_month_allowance = calculation.allowance_amount ∧
    s.total_points_earned = calculation.total_points_earned ∧
    (calculation.age_category = "teenager" →
      s.rate_per_point = (m.age : ℚ)) ∧
    (calculation.age_category ≠ "teenager" →
      s.rate_per_point = 1/2) := by
  simp only [currentMemberAllowance, hfind, Option.some.injEq] at hres
  subst hres
  refine ⟨rfl, rfl, ?_, ?_⟩
  · intro h; simp [h]
  · intro h; simp [h]

/-- Concrete teenager member for the C1 witness. -/
def teenMemberC1 : HouseholdMember :=
  { id := 3
    name := "Ash"
    date_of_birth := "2011-01-01"
    is_parent := false
    age := 14
    age_category := AgeCategory.teenager
    is_active := true
    parent_id := 1 }

/-- Concrete stored allowance calculation for the C1 witness. -/
def teenCalculationC1 : AllowanceCalculation :=
  { id := 2
    member_id := 3
    month_year := "2025-01"
    total_points_earned := 20
    total_points_possible := 40
    completion_percentage := 1/2
    allowance_amount := 280
    age_category := "teenager"
    calculated_at := "2025-01-31"
    member_name := none }

/-- C1 witness: the amended rate rule evaluated on a concrete
teenager aged 14: the displayed rate per point is 14. -/
theorem currentMemberAllowance_rate_spec_witness :
    (currentMemberAllowance [teenCalculationC1] (some teenMemberC1)
      "2025-01").map (fun s => s.rate_per_point) = some 14 := by
  obtain ⟨s, hs⟩ : ∃ s, currentMemberAllowance [teenCalculationC1]
      (some teenMemberC1) "2025-01" = some s := ⟨_, rfl⟩
  have h := currentMemberAllowance_rate_spec [teenCalculationC1]
    teenMemberC1 "2025-01" teenCalculationC1 s rfl hs
  have hr := h.2.2.1 rfl
  rw [hs, Option.map_some', hr]
  norm_num [teenMemberC1]

/-- Derived display status of a chore: the four-valued return type of
getChoreStatus in the chore list component and of the status prop of
ChoreCard.svelte. -/
inductive DerivedStatus
  | available
  | disabled
  | pending
  | completed
deriving DecidableEq, Repr

/-- getChoreStatus from the chore list component (src/unnamed/part_015
lines 20-27): the stored "completed" status wins, then the stored
"pending" status, then the chore is disabled while now is strictly
before next_available_at, and available otherwise. -/
def getChoreStatus (chore : Chore) (now : Int) : DerivedStatus :=
  if chore.status = some StoredStatus.completed then .completed
  else if chore.status = some StoredStatus.pending then .pending
  else
    match chore.next_available_at with
    | some t => if t > now then .disabled else .available
    | none => .available

/-- The derived store availableChores from chores.ts (lines 1141-1143):
active chores whose next_available_at is absent or not in the future. -/
def availableChores (chores : List Chore) (now : Int) : List Chore :=
  chores.filter (fun chore =>
    chore.is_active &&
    match chore.next_available_at with
    | none => true
    | some t => decide (t ≤ now))

/-- The derived store disabledChores from chores.ts (lines 1145-1147):
active chores whose next_available_at is in the future. -/
def disabledChores (chores : List Chore) (now : Int) : List Chore :=
  chores.filter (fun chore =>
    chore.is_active &&
    match chore.next_available_at with
    | none => false
    | some t => decide (t > now))

/-- Concrete chore with stored status "completed" for the C3
counterexample. -/
def completedChoreC3 : Chore :=
  { id := 1
    name := "dishes"
    description := none
    points := 5
    frequency := Frequency.daily
    is_active := true
    room_id := 1
    parent_id := 1
    last_completed_at := some 0
    next_available_at := some 100
    status := some StoredStatus.completed
    completed_by := none
    room_name := none }

/-- C3 counterexample: getChoreStatus can return a fourth value,
completed, which is none of available, disabled or pending, so the
derived displayed status is not exactly one of those three. -/
theorem getChoreStatus_completed_counterexample :
    getChoreStatus completedChoreC3 50 = DerivedStatus.completed ∧
    DerivedStatus.completed ≠ DerivedStatus.available ∧
    DerivedStatus.completed ≠ DerivedStatus.disabled ∧
    DerivedStatus.completed ≠ DerivedStatus.pending := by
  refine ⟨rfl, by decide, by decide, by decide⟩

/-- C3 amended: for a chore whose stored status is neither "completed"
nor "pending" (so no unresolved or confirmed completion is recorded on
it), the derived status is disabled exactly when next_available_at is
present and strictly after now, and available exactly when
next_available_at is absent or at most now; hence the status is
disabled on the whole interval before next_available_at and available
at and after it, and no chore is in both the availableChores and the
disabledChores derived stores at once. -/
theorem getChoreStatus_threshold (chore : Chore) (now : Int)
    (hc : chore.status ≠ some StoredStatus.completed)
    (hp : chore.status ≠ some StoredStatus.pending) :
    (getChoreStatus chore now = DerivedStatus.disabled ↔
      ∃ t, chore.next_available_at = some t ∧ now < t) ∧
    (getChoreStatus chore now = DerivedStatus.available ↔
      ∀ t, chore.next_available_at = some t → t ≤ now) ∧
    (∀ l : List Chore,
      ¬ (chore ∈ availableChores l now ∧ chore ∈ disabledChores l now)) := by
  refine ⟨?_, ?_, ?_⟩
  · unfold getChoreStatus
    rw [if_neg hc, if_neg hp]
    cases h : chore.next_available_at with
    | none => simp
    | some t =>
        by_cases hlt : t > now
        · simp [hlt]
        · simp [hlt]
  · unfold getChoreStatus
    rw [if_neg hc, if_neg hp]
    cases h : chore.next_available_at with
    | none => simp
    | some t =>
        by_cases hlt : t > now
        · simp [hlt]
        · simp [hlt]
          omega
  · intro l hmem
    obtain ⟨ha, hd⟩ := hmem
    rw [availableChores, List.mem_filter] at ha
    rw [disabledChores, List.mem_filter] at hd
    cases h : chore.next_available_at with
    | none => rw [h] at hd; simp at hd
    | some t =>
        rw [h] at ha hd
        simp at ha hd
        omega

/-- Concrete stored-status-free chore for the C3 witness, with
next_available_at = 100. -/
def lockedChoreC3 : Chore :=
  { id := 2
    name := "laundry"
    description := none
    points := 3
    frequency := Frequency.weekly
    is_active := true
    room_id := 1
    parent_id := 1
    last_completed_at := some 0
    next_available_at := some 100
    status := none
    completed_by := none
    room_name := none }

/-- C3 witness: the amended threshold rule evaluated at a concrete
chore with next_available_at = 100: disabled at now = 50 and available
at now = 100. -/
theorem getChoreStatus_threshold_witness :
    getChoreStatus lockedChoreC3 50 = DerivedStatus.disabled ∧
    getChoreStatus lockedChoreC3 100 = DerivedStatus.available := by
  constructor
  · exact (getChoreStatus_threshold lockedChoreC3 50 (by decide)
      (by decide)).1.mpr ⟨100, rfl, by decide⟩
  · exact (getChoreStatus_threshold lockedChoreC3 100 (by decide)
      (by decide)).2.1.mpr (by intro t ht; cases ht; decide)

/-- C4: the ChoreCompletion status union written in chores.ts does not
contain "rejected"; it contains "disabled" instead, so a rejected
completion is not representable in the declared status set and the set
differs from the documented one. -/
theorem completionStatus_no_rejected :
    "rejected" ∉ completionStatusStrings ∧
    "disabled" ∈ completionStatusStrings ∧
    completionStatusStrings ≠ ["pending", "completed", "rejected"] := by
  refine ⟨by decide, by decide, by decide⟩

/-- Parent record from chores.ts (lines 12-19). -/
structure Parent where
  id : Int
  name : String
  pin : String
  is_active : Bool
deriving DecidableEq, Repr

/-- ChoreDashboard record from chores.ts (lines 102-109). -/
structure ChoreDashboard where
  rooms : List Room
  chores : List Chore
  household_members : List HouseholdMember
  pending_completions : List ChoreCompletion
  weekly_points : List WeeklyPoints
  current_member : Option HouseholdMember
deriving DecidableEq, Repr

/-- ParentDashboard record from chores.ts (lines 111-118). -/
structure ParentDashboard where
  rooms : List Room
  chores : List Chore
  household_members : List HouseholdMember
  pending_completions : List ChoreCompletion
  weekly_points : List WeeklyPoints
  allowance_calculations : List AllowanceCalculation
deriving DecidableEq, Repr

/-- The ChoresStore state record from chores.ts (lines 189-215). The
live EventSource handle is modelled as a Boolean presence flag. -/
structure StoreState where
  currentParent : Option Parent
  isAuthenticated : Bool
  rooms : List Room
  chores : List Chore
  householdMembers : List HouseholdMember
  currentMember : Option HouseholdMember
  pendingCompletions : List ChoreCompletion
  weeklyPoints : List WeeklyPoints
  allowanceCalculations : List AllowanceCalculation
  loading : Bool
  error : Option String
  selectedRoomId : Option Int
  dashboard : Option ChoreDashboard
  parentDashboard : Option ParentDashboard
  sseConnection : Bool
  isConnected : Bool
deriving DecidableEq, Repr

/-- The initial store state from chores.ts (lines 218-235). -/
def initialStore : StoreState :=
  { currentParent := none
    isAuthenticated := false
    rooms := []
    chores := []
    householdMembers := []
    currentMember := none
    pendingCompletions := []
    weeklyPoints := []
    allowanceCalculations := []
    loading := false
    error := none
    selectedRoomId := none
    dashboard := none
    parentDashboard := none
    sseConnection := false
    isConnected := false }

/-- The SSE event payload as read by the nine handlers in chores.ts:
the untyped JS data object is modelled as the record of the fields the
handlers access (data.completion, data.completion_id, data.chore,
data.room, data.member). -/
structure EventData where
  completion : ChoreCompletion
  completion_id : Int
  chore : Chore
  room : Room
  member : HouseholdMember
deriving DecidableEq, Repr

/-- handleChoreCompletedEvent from chores.ts (lines 447-453): appends
the new pending completion. -/
def handleChoreCompletedEvent (data : EventData) (s : StoreState) :
    StoreState :=
  { s with pendingCompletions := s.pendingCompletions ++ [data.completion] }

/-- handleCompletionConfirmedEvent from chores.ts (lines 455-461):
drops the pending completions whose id equals the event completion_id. -/
def handleCompletionConfirmedEvent (data : EventData) (s : StoreState) :
    StoreState :=
  { s with pendingCompletions :=
      s.pendingCompletions.filter (fun c => c.id != data.completion_id) }

/-- handleCompletionRejectedEvent from chores.ts (lines 463-469): the
same pending-list filtering as the confirmed case. -/
def handleCompletionRejectedEvent (data : EventData) (s : StoreState) :
    StoreState :=
  { s with pendingCompletions :=
      s.pendingCompletions.filter (fun c => c.id != data.completion_id) }

/-- handleChoreCreatedEvent from chores.ts (lines 471-477). -/
def handleChoreCreatedEvent (data : EventData) (s : StoreState) :
    StoreState :=
  { s with chores := s.chores ++ [data.chore] }

/-- handleChoreUpdatedEvent from chores.ts (lines 479-485). -/
def handleChoreUpdatedEvent (data : EventData) (s : StoreState) :
    StoreState :=
  { s with
    chores :=
      s.chores.map (fun c => if c.id == data.chore.id then data.chore else c) }

/-- handleRoomCreatedEvent from chores.ts (lines 487-493). -/
def handleRoomCreatedEvent (data : EventData) (s : StoreState) :
    StoreState :=
  { s with rooms := s.rooms ++ [data.room] }

/-- handleRoomUpdatedEvent from chores.ts (lines 495-501). -/
def handleRoomUpdatedEvent (data : EventData) (s : StoreState) :
    StoreState :=
  { s with
    rooms :=
      s.rooms.map (fun r => if r.id == data.room.id then data.room else r) }

/-- handleMemberCreatedEvent from chores.ts (lines 503-509). -/
def handleMemberCreatedEvent (data : EventData) (s : StoreState) :
    StoreState :=
  { s with householdMembers := s.householdMembers ++ [data.member] }

/-- handleMemberUpdatedEvent from chores.ts (lines 511-518): updates
the member list and, when it is the current member, the current
member as well. -/
def handleMemberUpdatedEvent (data : EventData) (s : StoreState) :
    StoreState :=
  { s with
    householdMembers := s.householdMembers.map
      (fun m => if m.id == data.member.id then data.member else m)
    currentMember :=
      match s.currentMember with
      | some cm => if cm.id == data.member.id then some data.member else some cm
      | none => none }

/-- handleSSEEvent from chores.ts (lines 411-445): the switch over the
event_type string, falling through to an unchanged state (the default
branch only logs). -/
def handleSSEEvent (event_type : String) (data : EventData)
    (s : StoreState) : StoreState :=
  if event_type = "chore_completed" then handleChoreCompletedEvent data s
  else if event_type = "completion_confirmed" then
    handleCompletionConfirmedEvent data s
  else if event_type = "completion_rejected" then
    handleCompletionRejectedEvent data s
  else if event_type = "chore_created" then handleChoreCreatedEvent data s
  else if event_type = "chore_updated" then handleChoreUpdatedEvent data s
  else if event_type = "room_created" then handleRoomCreatedEvent data s
  else if event_type = "room_updated" then handleRoomUpdatedEvent data s
  else if event_type = "member_created" then handleMemberCreatedEvent data s
  else if event_type = "member_updated" then handleMemberUpdatedEvent data s
  else s

/-- The nine closed event tags of the SSE stream. -/
def sseEventTags : List String :=
  ["chore_completed", "completion_confirmed", "completion_rejected",
   "chore_created", "chore_updated", "room_created", "room_updated",
   "member_created", "member_updated"]

/-- C5: the event dispatcher routes each of the nine closed tags to its
state-update handler and leaves the store state unchanged for any
event_type outside the nine. -/
theorem handleSSEEvent_dispatch (event_type : String) (data : EventData)
    (s : StoreState) :
    handleSSEEvent "chore_completed" data s =
      handleChoreCompletedEvent data s ∧
    handleSSEEvent "completion_confirmed" data s =
      handleCompletionConfirmedEvent data s ∧
    handleSSEEvent "completion_rejected" data s =
      handleCompletionRejectedEvent data s ∧
    handleSSEEvent "chore_created" data s = handleChoreCreatedEvent data s ∧
    handleSSEEvent "chore_updated" data s = handleChoreUpdatedEvent data s ∧
    handleSSEEvent "room_created" data s = handleRoomCreatedEvent data s ∧
    handleSSEEvent "room_updated" data s = handleRoomUpdatedEvent data s ∧
    handleSSEEvent "member_created" data s = handleMemberCreatedEvent data s ∧
    handleSSEEvent "member_updated" data s = handleMemberUpdatedEvent data s ∧
    (event_type ∉ sseEventTags → handleSSEEvent event_type data s = s) := by
  refine ⟨rfl, rfl, rfl, rfl, rfl, rfl, rfl, rfl, rfl, ?_⟩
  intro h
  simp only [sseEventTags, List.mem_cons, List.not_mem_nil, or_false,
    not_or] at h
  obtain ⟨h1, h2, h3, h4, h5, h6, h7, h8, h9⟩ := h
  simp [handleSSEEvent, h1, h2, h3, h4, h5, h6, h7, h8, h9]

/-- Sample chore used in witnesses. -/
def sampleChore : Chore :=
  { id := 1
    name := "sweep"
    description := none
    points := 5
    frequency := Frequency.daily
    is_active := true
    room_id := 1
    parent_id := 1
    last_completed_at := none
    next_available_at := none
    status := none
    completed_by := none
    room_name := none }

/-- Sample pending completion used in witnesses. -/
def sampleCompletion : ChoreCompletion :=
  { id := 5
    chore_id := 1
    member_id := 3
    parent_id := none
    status := StoredStatus.pending
    points_earned := 5
    completed_at := some 10
    confirmed_at := none
    week_start := "2025-01-06"
    created_at := "2025-01-06"
    member_name := none
    chore_name := none }

/-- Sample room used in witnesses. -/
def sampleRoom : Room :=
  { id := 1
    name := "Kitchen"
    description := none
    color_code := none
    is_active := true
    parent_id := 1 }

/-- Sample event payload used in witnesses. -/
def sampleEventData : EventData :=
  { completion := sampleCompletion
    completion_id := 5
    chore := sampleChore
    room := sampleRoom
    member := teenMemberC1 }

/-- C5 witness: an event tag outside the nine, grocery_updated, leaves
the initial store unchanged. -/
theorem handleSSEEvent_dispatch_witness :
    handleSSEEvent "grocery_updated" sampleEventData initialStore =
      initialStore :=
  (handleSSEEvent_dispatch "grocery_updated" sampleEventData
    initialStore).2.2.2.2.2.2.2.2.2 (by decide)

/-- C9: handling a completion_confirmed or completion_rejected event
removes from pendingCompletions exactly the entries whose id equals the
event completion_id (keeping the others in order) and leaves every
other store field unchanged; the rejected handler is extensionally the
confirmed handler. -/
theorem handleCompletionEvents_frame (data : EventData) (s : StoreState) :
    (handleCompletionConfirmedEvent data s).pendingCompletions =
      s.pendingCompletions.filter (fun c => c.id != data.completion_id) ∧
    (∀ c, c ∈ (handleCompletionConfirmedEvent data s).pendingCompletions ↔
      c ∈ s.pendingCompletions ∧ c.id ≠ data.completion_id) ∧
    (handleCompletionConfirmedEvent data s).currentParent = s.currentParent ∧
    (handleCompletionConfirmedEvent data s).isAuthenticated =
      s.isAuthenticated ∧
    (handleCompletionConfirmedEvent data s).rooms = s.rooms ∧
    (handleCompletionConfirmedEvent data s).chores = s.chores ∧
    (handleCompletionConfirmedEvent data s).householdMembers =
      s.householdMembers ∧
    (handleCompletionConfirmedEvent data s).currentMember =
      s.currentMember ∧
    (handleCompletionConfirmedEvent data s).weeklyPoints = s.weeklyPoints ∧
    (handleCompletionConfirmedEvent data s).allowanceCalculations =
      s.allowanceCalculations ∧
    (handleCompletionConfirmedEvent data s).loading = s.loading ∧
    (handleCompletionConfirmedEvent data s).error = s.error ∧
    (handleCompletionConfirmedEvent data s).selectedRoomId =
      s.selectedRoomId ∧
    (handleCompletionConfirmedEvent data s).dashboard = s.dashboard ∧
    (handleCompletionConfirmedEvent data s).parentDashboard =
      s.parentDashboard ∧
    (handleCompletionConfirmedEvent data s).sseConnection =
      s.sseConnection ∧
    (handleCompletionConfirmedEvent data s).isConnected = s.isConnected ∧
    handleCompletionRejectedEvent data s =
      handleCompletionConfirmedEvent data s := by
  refine ⟨rfl, ?_, rfl, rfl, rfl, rfl, rfl, rfl, rfl, rfl, rfl, rfl, rfl,
    rfl, rfl, rfl, rfl, rfl⟩
  intro c
  simp [handleCompletionConfirmedEvent, List.mem_filter, bne_iff_ne]

/-- ChoreCompletionBatchConfirm request record from chores.ts (lines
168-171). -/
structure ChoreCompletionBatchConfirm where
  completion_ids : List Int
  confirmed : Bool
deriving DecidableEq, Repr

/-- ChoreCompletionBatchResponse record from chores.ts (lines 173-179),
with the untyped errors array modelled as strings. -/
structure ChoreCompletionBatchResponse where
  processed_count : Int
  successful_count : Int
  failed_count : Int
  results : List ChoreCompletion
  errors : List String
deriving DecidableEq, Repr

/-- The state update batchConfirmCompletions performs in chores.ts
(lines 971-1002) when the request resolves without throwing: whatever
the response reports, the pending list drops every completion whose id
appears in the request completion_ids, loading clears and error
resets. -/
def batchConfirmCompletions (batchData : ChoreCompletionBatchConfirm)
    (response : ChoreCompletionBatchResponse) (s : StoreState) :
    StoreState :=
  { s with
    pendingCompletions := s.pendingCompletions.filter
      (fun completion => !(batchData.completion_ids.contains completion.id))
    loading := false
    error := none }

/-- C10: when a batch confirm/reject request resolves, every completion
whose id is in the request list is removed from pendingCompletions, the
others are kept, and the resulting state does not depend on the
response at all, in particular not on failed_count. -/
theorem batchConfirmCompletions_spec
    (batchData : ChoreCompletionBatchConfirm)
    (r1 r2 : ChoreCompletionBatchResponse) (s : StoreState) :
    (∀ c ∈ (batchConfirmCompletions batchData r1 s).pendingCompletions,
      c.id ∉ batchData.completion_ids) ∧
    (∀ c ∈ s.pendingCompletions, c.id ∉ batchData.completion_ids →
      c ∈ (batchConfirmCompletions batchData r1 s).pendingCompletions) ∧
    batchConfirmCompletions batchData r1 s =
      batchConfirmCompletions batchData r2 s := by
  refine ⟨?_, ?_, rfl⟩
  · intro c hc
    simp [batchConfirmCompletions, List.mem_filter] at hc
    exact hc.2
  · intro c hc hid
    simp [batchConfirmCompletions, List.mem_filter]
    exact ⟨hc, hid⟩

/-- Second sample completion, not named in the batch request of the
C10 witness. -/
def sampleCompletion2 : ChoreCompletion :=
  { id := 6
    chore_id := 2
    member_id := 3
    parent_id := none
    status := StoredStatus.pending
    points_earned := 3
    completed_at := some 20
    confirmed_at := none
    week_start := "2025-01-06"
    created_at := "2025-01-06"
    member_name := none
    chore_name := none }

/-- Store state with two pending completions for the C10 witness. -/
def batchStoreC10 : StoreState :=
  { initialStore with
    pendingCompletions := [sampleCompletion, sampleCompletion2] }

/-- Batch request naming only completion 5 for the C10 witness. -/
def batchRequestC10 : ChoreCompletionBatchConfirm :=
  { completion_ids := [5], confirmed := true }

/-- A response reporting one per-item failure, for the C10 witness. -/
def failedResponseC10 : ChoreCompletionBatchResponse :=
  { processed_count := 1
    successful_count := 0
    failed_count := 1
    results := []
    errors := ["InvalidState"] }

/-- An all-success response, for the C10 witness. -/
def okResponseC10 : ChoreCompletionBatchResponse :=
  { processed_count := 1
    successful_count := 1
    failed_count := 0
    results := [sampleCompletion]
    errors := [] }

/-- C10 witness: with a response reporting failed_count = 1, the
requested completion is still gone, the unrequested one is kept, and
the state equals the one produced under the all-success response. -/
theorem batchConfirmCompletions_spec_witness :
    sampleCompletion2 ∈ (batchConfirmCompletions batchRequestC10
      failedResponseC10 batchStoreC10).pendingCompletions ∧
    (∀ c ∈ (batchConfirmCompletions batchRequestC10 failedResponseC10
      batchStoreC10).pendingCompletions,
      c.id ∉ batchRequestC10.completion_ids) ∧
    batchConfirmCompletions batchRequestC10 failedResponseC10
        batchStoreC10 =
      batchConfirmCompletions batchRequestC10 okResponseC10
        batchStoreC10 := by
  have h := batchConfirmCompletions_spec batchRequestC10 failedResponseC10
    okResponseC10 batchStoreC10
  exact ⟨h.2.1 sampleCompletion2 (by decide) (by decide), h.1, h.2.2⟩

/-- handleComplete from ChoreCard.svelte (lines 16-20): the wired
completion callback, modelled by its presence flag, fires only when
the card status is available; the returned Boolean is true exactly
when the callback is invoked. -/
def handleComplete (onCompleted : Bool) (status : DerivedStatus) : Bool :=
  onCompleted && status == DerivedStatus.available

/-- canComplete from ChoreCard.svelte (lines 76-78). -/
def canComplete (status : DerivedStatus) (onCompleted : Bool) : Bool :=
  status == DerivedStatus.available && onCompleted

/-- C6: the ChoreCard completion callback is never invoked unless the
displayed status is available: handleComplete fires only for the
available status and never for disabled, pending or completed, and
canComplete holds only for available. -/
theorem handleComplete_only_available (onCompleted : Bool)
    (status : DerivedStatus) :
    (handleComplete onCompleted status = true →
      status = DerivedStatus.available) ∧
    (status ≠ DerivedStatus.available →
      handleComplete onCompleted status = false) ∧
    (canComplete status onCompleted = true →
      status = DerivedStatus.available) := by
  cases status <;> cases onCompleted <;> decide

/-- C6 witness: with a callback wired but the card pending, the
callback does not fire. -/
theorem handleComplete_only_available_witness :
    handleComplete true DerivedStatus.pending = false :=
  (handleComplete_only_available true DerivedStatus.pending).2.1 (by decide)

/-- Typed errors of the completion state machine (spec section 7). -/
inductive CoreError
  | NotFound
  | Conflict
  | InvalidState
deriving DecidableEq, Repr

/-- Modelled from the spec: WEEKLY_CAP, the fixed 30-point weekly cap
of spec section 4.3; the backend holding the constant is not in the
sources. -/
def WEEKLY_CAP : Int := 30

/-- Modelled from the spec: the Entity Store rows the backend confirm
operation reads and writes (spec sections 3 and 4.2); the backend
service itself is absent from the sources, only its HTTP callers are
present. -/
structure BackendState where
  completions : List ChoreCompletion
  weeklyPoints : List WeeklyPoints
  chores : List Chore
deriving DecidableEq, Repr

/-- Modelled from the spec: the predicate selecting the WeeklyPoints
row of a member for a week. -/
def isWeekRow (memberId : Int) (weekStart : String)
    (w : WeeklyPoints) : Bool :=
  w.member_id == memberId && w.week_start == weekStart

/-- Modelled from the spec: the per-row update of the weekly-points
increment: the matching row gains the points and its points_capped is
recomputed as min(points_earned, WEEKLY_CAP). -/
def bumpWeekly (memberId : Int) (weekStart : String) (points : Int)
    (w : WeeklyPoints) : WeeklyPoints :=
  if isWeekRow memberId weekStart w then
    { w with
      points_earned := w.points_earned + points
      points_capped := min (w.points_earned + points) WEEKLY_CAP }
  else w

/-- Modelled from the spec: the atomic weekly-points increment inside
the confirm transaction: add the earned points to the (member,
week_start) row, creating it when absent, and recompute points_capped
as min(points_earned, WEEKLY_CAP). -/
def incrementWeekly (rows : List WeeklyPoints) (memberId : Int)
    (weekStart : String) (points : Int) : List WeeklyPoints :=
  if rows.any (isWeekRow memberId weekStart) then
    rows.map (bumpWeekly memberId weekStart points)
  else
    rows ++ [{ id := 0
               member_id := memberId
               week_start := weekStart
               week_end := weekStart
               points_earned := points
               points_capped := min points WEEKLY_CAP
               member_name := none }]

/-- Modelled from the spec: the per-row completion update the confirm
transaction applies: the completion with the confirmed id becomes
completed and has confirmed_at stamped. -/
def markConfirmed (completionId : Int) (now : Int)
    (d : ChoreCompletion) : ChoreCompletion :=
  if d.id == completionId then
    { d with
      status := StoredStatus.completed
      confirmed_at := some now }
  else d

/-- Modelled from the spec: confirm(completionId, approverId) of the
backend Completion State Machine (spec section 4.2), absent from the
sources: NotFound when the completion is unknown, InvalidState when it
is not pending; otherwise mark it completed, stamp confirmed_at,
update the chore last_completed_at and atomically increment the member
weekly points for its week_start. The transition either fully applies
(the returned state) or fully fails (the typed error, with no state
change). -/
def confirm (s : BackendState) (completionId : Int) (now : Int) :
    Except CoreError BackendState :=
  match s.completions.find? (fun c => c.id == completionId) with
  | none => Except.error CoreError.NotFound
  | some c =>
    if c.status ≠ StoredStatus.pending then
      Except.error CoreError.InvalidState
    else
      Except.ok
        { completions := s.completions.map (markConfirmed completionId now)
          weeklyPoints := incrementWeekly s.weeklyPoints c.member_id
            c.week_start c.points_earned
          chores := s.chores.map (fun ch =>
            if ch.id == c.chore_id then
              { ch with last_completed_at := c.completed_at }
            else ch) }

/-- Sum of the stored raw weekly points of a member for a given week. -/
def weeklyPointsFor (rows : List WeeklyPoints) (memberId : Int)
    (weekStart : String) : Int :=
  ((rows.filter (isWeekRow memberId weekStart)).map
    (fun w => w.points_earned)).sum

/-- The weekly-row update leaves the row key unchanged. -/
theorem isWeekRow_bumpWeekly (memberId : Int) (weekStart : String)
    (points : Int) (w : WeeklyPoints) :
    isWeekRow memberId weekStart (bumpWeekly memberId weekStart points w) =
      isWeekRow memberId weekStart w := by
  unfold bumpWeekly
  by_cases hw : isWeekRow memberId weekStart w
  · rw [if_pos hw, hw]
    unfold isWeekRow at hw ⊢
    simp only [Bool.and_eq_true, beq_iff_eq] at hw
    simp [hw.1, hw.2]
  · rw [if_neg hw]

/-- The completion update leaves the completion id unchanged. -/
theorem markConfirmed_id (completionId now : Int) (d : ChoreCompletion) :
    (markConfirmed completionId now d).id = d.id := by
  unfold markConfirmed
  split <;> rfl

/-- The weekly increment adds the points to the (member, week) total
exactly once, provided the rows hold at most one row for that key, as
the spec data model requires. -/
theorem weeklyPointsFor_incrementWeekly (rows : List WeeklyPoints)
    (memberId : Int) (weekStart : String) (points : Int)
    (hone : (rows.filter (isWeekRow memberId weekStart)).length ≤ 1) :
    weeklyPointsFor (incrementWeekly rows memberId weekStart points)
      memberId weekStart =
    weeklyPointsFor rows memberId weekStart + points := by
  unfold incrementWeekly weeklyPointsFor
  by_cases hany : rows.any (isWeekRow memberId weekStart)
  · rw [if_pos hany]
    have hfil : (rows.map (bumpWeekly memberId weekStart points)).filter
        (isWeekRow memberId weekStart) =
        (rows.filter (isWeekRow memberId weekStart)).map
          (bumpWeekly memberId weekStart points) := by
      rw [List.filter_map]
      congr 1
      apply List.filter_congr
      intro w _
      exact isWeekRow_bumpWeekly memberId weekStart points w
    rw [hfil]
    rcases List.any_eq_true.mp hany with ⟨w0, hw0mem, hw0⟩
    have hlen1 : (rows.filter (isWeekRow memberId weekStart)).length = 1 := by
      have hge : 0 < (rows.filter (isWeekRow memberId weekStart)).length := by
        apply List.length_pos.mpr
        intro hnil
        have := (List.filter_eq_nil_iff.mp hnil) w0 hw0mem
        simp [hw0] at this
      omega
    rcases List.length_eq_one.mp hlen1 with ⟨w, hw⟩
    rw [hw]
    have hpw : isWeekRow memberId weekStart w = true := by
      have hmem : w ∈ rows.filter (isWeekRow memberId weekStart) := by
        rw [hw]
        exact List.mem_singleton.mpr rfl
      exact (List.mem_filter.mp hmem).2
    simp only [List.map_cons, List.map_nil, List.sum_cons, List.sum_nil]
    unfold bumpWeekly
    rw [if_pos hpw]
    ring
  · rw [if_neg hany, List.filter_append]
    have hnil : rows.filter (isWeekRow memberId weekStart) = [] := by
      apply List.filter_eq_nil_iff.mpr
      intro w hwmem hcontra
      exact hany (List.any_eq_true.mpr ⟨w, hwmem, hcontra⟩)
    rw [hnil]
    simp [isWeekRow]

/-- Mapping the completion update across the store commutes with
looking the completion up by id. -/
theorem find?_map_markConfirmed (l : List ChoreCompletion)
    (completionId now : Int) :
    (l.map (markConfirmed completionId now)).find?
        (fun d => d.id == completionId) =
      (l.find? (fun d => d.id == completionId)).map
        (markConfirmed completionId now) := by
  rw [List.find?_map]
  have hcmp : ((fun d : ChoreCompletion => d.id == completionId) ∘
      markConfirmed completionId now) =
      (fun d : ChoreCompletion => d.id == completionId) := by
    funext d
    simp only [Function.comp_apply, markConfirmed_id]
  rw [hcmp]

/-- C7: after a successful confirm of a pending completion, a second
confirm of the same completion id fails with InvalidState and yields
no new state (the transaction fully fails, leaving WeeklyPoints as the
first call left them), and the member weekly points for the
completion week were incremented exactly once by the first call. -/
theorem confirm_second_call_invalid (s s2 : BackendState)
    (cid n1 n2 : Int) (c : ChoreCompletion)
    (hfind : s.completions.find? (fun d => d.id == cid) = some c)
    (hone : (s.weeklyPoints.filter
      (isWeekRow c.member_id c.week_start)).length ≤ 1)
    (hok : confirm s cid n1 = Except.ok s2) :
    confirm s2 cid n2 = Except.error CoreError.InvalidState ∧
    weeklyPointsFor s2.weeklyPoints c.member_id c.week_start =
      weeklyPointsFor s.weeklyPoints c.member_id c.week_start +
        c.points_earned := by
  simp only [confirm, hfind] at hok
  by_cases hst : c.status ≠ StoredStatus.pending
  · rw [if_pos hst] at hok
    cases hok
  · rw [if_neg hst] at hok
    simp only [Except.ok.injEq] at hok
    subst hok
    have hcid0 := List.find?_some hfind
    have hcid : (c.id == cid) = true := hcid0
    have hfc : (markConfirmed cid n1 c).status = StoredStatus.completed := by
      unfold markConfirmed
      rw [if_pos hcid]
    constructor
    · simp only [confirm, find?_map_markConfirmed, hfind, Option.map_some']
      rw [if_pos]
      rw [hfc]
      decide
    · exact weeklyPointsFor_incrementWeekly s.weeklyPoints c.member_id
        c.week_start c.points_earned hone

/-- Concrete backend state with one pending completion for the C7
witness. -/
def backendC7 : BackendState :=
  { completions := [sampleCompletion]
    weeklyPoints := []
    chores := [sampleChore] }

/-- The backend state after the first successful confirm of the C7
witness scenario. -/
def backendC7after : BackendState :=
  match confirm backendC7 5 100 with
  | Except.ok t => t
  | Except.error _ => backendC7

/-- C7 witness: confirming completion 5 of the concrete state once
succeeds; the second confirm returns InvalidState and the weekly
points of member 3 were incremented exactly once, from 0 to 5. -/
theorem confirm_second_call_invalid_witness :
    confirm backendC7after 5 200 = Except.error CoreError.InvalidState ∧
    weeklyPointsFor backendC7after.weeklyPoints 3 "2025-01-06" = 0 + 5 := by
  have h := confirm_second_call_invalid backendC7 backendC7after 5 100 200
    sampleCompletion rfl (by decide) rfl
  exact ⟨h.1, h.2⟩

/-- Modelled from the spec: the Household Event Broadcaster registry
of spec section 4.5, absent from the sources: the set of live
(householdId, channelId) subscriptions. -/
structure Broadcaster where
  subs : List (Int × Int)
deriving DecidableEq, Repr

/-- A typed event on the broadcaster, the payload abstracted as a
string. -/
structure BroadcastEvent where
  event_type : String
  data : String
deriving DecidableEq, Repr

/-- Modelled from the spec: the broadcaster operations: subscribe and
unsubscribe maintain the registry, publish fans an event out. -/
inductive BAction
  | subscribe (householdId channelId : Int)
  | unsubscribe (householdId channelId : Int)
  | publish (householdId : Int) (event : BroadcastEvent)
deriving DecidableEq, Repr

/-- Modelled from the spec: one broadcaster step: subscribe registers a
channel for a household, unsubscribe removes it, and publish delivers
the event to the current subscribers of that household only, returning
the deliveries as (householdId, channelId, event) triples tagged with
the publishing household. -/
def bstep (b : Broadcaster) (a : BAction) :
    Broadcaster × List (Int × Int × BroadcastEvent) :=
  match a with
  | BAction.subscribe h c => ({ subs := b.subs ++ [(h, c)] }, [])
  | BAction.unsubscribe h c =>
      ({ subs := b.subs.filter (fun q => q ≠ (h, c)) }, [])
  | BAction.publish h e =>
      (b, (b.subs.filter (fun q => q.1 == h)).map (fun q => (h, q.2, e)))

/-- Modelled from the spec: run an interleaving of broadcaster actions
from a starting registry, collecting every delivery in order. -/
def brun (b : Broadcaster) : List BAction → List (Int × Int × BroadcastEvent)
  | [] => []
  | a :: rest => (bstep b a).2 ++ brun (bstep b a).1 rest

/-- A channel that is never subscribed to household h2 during the
remaining trace, and is not currently registered for h2, receives no
event published for h2. -/
theorem brun_no_delivery (trace : List BAction) (b : Broadcaster)
    (h2 cch : Int) (e : BroadcastEvent)
    (hnotin : (h2, cch) ∉ b.subs)
    (hnosub : ∀ a ∈ trace, a ≠ BAction.subscribe h2 cch) :
    (h2, cch, e) ∉ brun b trace := by
  induction trace generalizing b with
  | nil => simp [brun]
  | cons a rest ih =>
    match a with
    | BAction.subscribe h0 c0 =>
        simp only [brun, bstep, List.nil_append]
        apply ih
        · intro hmem
          rcases List.mem_append.mp hmem with hl | hr
          · exact hnotin hl
          · have : (h2, cch) = (h0, c0) := List.mem_singleton.mp hr
            have hne := hnosub (BAction.subscribe h0 c0)
              (List.mem_cons_self _ _)
            apply hne
            rw [Prod.mk.injEq] at this
            rw [this.1, this.2]
        · intro a2 ha2
          exact hnosub a2 (List.mem_cons_of_mem _ ha2)
    | BAction.unsubscribe h0 c0 =>
        simp only [brun, bstep, List.nil_append]
        apply ih
        · intro hmem
          exact hnotin (List.mem_filter.mp hmem).1
        · intro a2 ha2
          exact hnosub a2 (List.mem_cons_of_mem _ ha2)
    | BAction.publish h0 e0 =>
        simp only [brun, bstep]
        intro hmem
        rcases List.mem_append.mp hmem with hds | hrest
        · rcases List.mem_map.mp hds with ⟨q, hqmem, hq⟩
          rw [Prod.mk.injEq] at hq
          obtain ⟨hh, hq2⟩ := hq
          rw [Prod.mk.injEq] at hq2
          obtain ⟨hc, _⟩ := hq2
          have hq1 : (q.1 == h0) = true := (List.mem_filter.mp hqmem).2
          have hqin : q ∈ b.subs := (List.mem_filter.mp hqmem).1
          apply hnotin
          have : q = (h2, cch) := by
            have h1 : q.1 = h0 := by exact_mod_cast eq_of_beq hq1
            rw [Prod.ext_iff]
            exact ⟨by rw [h1, hh], by rw [hc]⟩
          rw [this] at hqin
          exact hqin
        · exact ih b hnotin
            (fun a2 ha2 => hnosub a2 (List.mem_cons_of_mem _ ha2)) hrest

/-- C8: across any interleaving of subscriptions, unsubscriptions and
publishes starting from the empty registry, a channel whose every
subscription in the trace is for household h1 never receives an event
published for a different household h2: no delivery tagged with h2
reaches it. -/
theorem broadcaster_household_isolation (trace : List BAction)
    (h1 h2 cch : Int) (e : BroadcastEvent) (hne : h1 ≠ h2)
    (hreg : ∀ h, BAction.subscribe h cch ∈ trace → h = h1) :
    (h2, cch, e) ∉ brun { subs := [] } trace := by
  apply brun_no_delivery
  · simp
  · intro a ha heq
    subst heq
    exact hne ((hreg h2 ha).symm)

/-- Sample broadcast event for the C8 witness. -/
def sampleEvent : BroadcastEvent :=
  { event_type := "chore_completed", data := "completion 5" }

/-- C8 witness: in the concrete interleaving where channel 10
subscribes to household 1 and events are then published for households
2 and 1, channel 10 never receives the household-2 publish. -/
theorem broadcaster_household_isolation_witness :
    (2, 10, sampleEvent) ∉ brun { subs := [] }
      [BAction.subscribe 1 10, BAction.publish 2 sampleEvent,
       BAction.publish 1 sampleEvent] := by
  apply broadcaster_household_isolation _ 1 2 10 sampleEvent (by decide)
  intro h hmem
  simp only [List.mem_cons, List.not_mem_nil, or_false] at hmem
  rcases hmem with h1 | h2 | h3
  · cases h1; rfl
  · cases h2
  · cases h3

end Dashboard
